import Mathlib

/-!
Verification of the serai cosign engine (coordinator/cosign) against its
natural-language specification.

The Rust sources are shallowly embedded below:
- `intake_cosign`, `notable_cosigns`, `fault_weight_loop` follow
  `coordinator/cosign/src/lib.rs`;
- `eval_loop` / `run_iteration`, `currently_evaluated_global_session_strict`,
  `thresholdFails` follow `coordinator/cosign/src/evaluator.rs`;
- `delay_sleep_duration` follows `coordinator/cosign/src/delay.rs`;
- `GlobalSession.new` / `GlobalSession.idWith` follow the canonicalization in
  `coordinator/cosign/src/lib.rs`.

Byte strings (`[u8; 32]` hashes, keys, signatures) are modelled as `List Nat`.
Machine integers are modelled as `Nat`; where an overflow could matter
(the evaluator threshold product) the `u64` wrap-around is written explicitly
as `% 2^64`.  Fallible paths return `Option`: `none` models a Rust panic.
External crates (schnorrkel, blake2, the Serai RPC client) are not part of the
sources; their outputs enter through the `SeraiOracle` record, and the digest
used for global-session identifiers is taken as an explicit function argument.
-/

/-- Byte strings are modelled as lists of naturals. -/
abbrev Bytes : Type := List Nat

/-- The networks enumerated by `serai_client::primitives::NETWORKS`.
Modelled from the spec: networks are enumerated by a constant list. -/
inductive NetworkId where
  | serai
  | bitcoin
  | ethereum
  | monero
deriving DecidableEq

/-- A validator set: a network together with a session.
Modelled from the spec: global sessions are lists of `(network, session)`
pairs, the session being a `u32`. -/
structure ValidatorSet where
  network : NetworkId
  session : Fin 4294967296
deriving DecidableEq

/-- The identification of a cosigner (`Cosigner` in lib.rs). -/
inductive Cosigner where
  | validatorSet (network : NetworkId)
  | validator (address : Bytes)
deriving DecidableEq

/-- A cosign (`Cosign` in lib.rs). -/
structure Cosign where
  global_session : Bytes
  block_number : Nat
  block_hash : Bytes
  cosigner : Cosigner
deriving DecidableEq

/-- A signed cosign (`SignedCosign` in lib.rs). -/
structure SignedCosign where
  cosign : Cosign
  signature : Bytes
deriving DecidableEq

/-- The durable keys of the `Cosign` database in lib.rs, plus the evaluator's
`LatestCosignedBlockNumber` which `intake_cosign` reads.  Keys absent from the
store are `none` (or `[]` where the code applies `unwrap_or(vec![])`). -/
structure CosignState where
  cosigns : Nat → List SignedCosign
  globalSessions : Bytes → Option (Nat × Bytes)
  networksLatestCosignedBlock : NetworkId → Option SignedCosign
  faults : Bytes → List SignedCosign
  faultedSession : Option Bytes
  latestCosignedBlockNumber : Option Nat

/-- The responses of the external Serai node and signature scheme, as consumed
by `intake_cosign`.  `blockHash` is total because the code `expect`s the hash
of a block it just checked to be finalized. -/
structure SeraiOracle where
  latestFinalizedNumber : Nat
  blockHash : Nat → Bytes
  keysForNetwork : Bytes → NetworkId → Option Bytes
  verifySignature : SignedCosign → Bytes → Bool
  cosigningSets : Bytes → List ValidatorSet
  totalAllocatedStake : Bytes → NetworkId → Nat

/-- The fault-weight loop of `intake_cosign` (lib.rs lines 406-428), verbatim:
`total_weight` accumulates every set's stake, and when a set is found among the
faults the code adds the running `total_weight` (not the set's own stake) to
`weight_cosigned`.  Returns `(weight_cosigned, total_weight)`. -/
def fault_weight_loop (oracle : SeraiOracle) (start_hash : Bytes)
    (faults : List SignedCosign) : Nat × Nat :=
  (oracle.cosigningSets start_hash).foldl
    (fun acc set =>
      let stake := oracle.totalAllocatedStake start_hash set.network
      let total_weight := acc.2 + stake
      let weight_cosigned :=
        if faults.any (fun c => c.cosign.cosigner == Cosigner.validatorSet set.network) then
          acc.1 + total_weight
        else acc.1
      (weight_cosigned, total_weight))
    (0, 0)

/-- Modelled from the spec: the fault weight is
`Σ session.stakes[fault.cosigner]` across all recorded faults, i.e. the sum of
each faulting network's allocated stake as of the session's start block. -/
def spec_fault_weight (oracle : SeraiOracle) (start_hash : Bytes)
    (faults : List SignedCosign) : Nat :=
  (faults.map (fun f =>
    match f.cosign.cosigner with
    | Cosigner.validatorSet network => oracle.totalAllocatedStake start_hash network
    | Cosigner.validator _ => 0)).sum

/-- `Cosigning::intake_cosign` from lib.rs.  The transaction is modelled by
returning the original state on every path which drops the transaction, and
the updated state on the paths reaching `txn.commit()`.  The result is
`none` when the code would panic (the `total_weight != 0` assertion), and
otherwise `some (result, committed state)`. -/
def intake_cosign (σ : CosignState) (oracle : SeraiOracle)
    (signed_cosign : SignedCosign) : Option (Bool × CosignState) :=
  let cosign := signed_cosign.cosign
  -- Check if we've prior handled this cosign
  let cosigns_for_this_block_position := σ.cosigns cosign.block_number
  if cosigns_for_this_block_position.any (fun existing => existing.cosign == cosign) then
    some (true, σ)
  else
    -- Check we can verify this cosign's signature
    match σ.globalSessions cosign.global_session with
    | none => some (true, σ)
    | some (global_session_start_block_number, global_session_start_block_hash) =>
      match cosign.cosigner with
      | Cosigner.validator _ => some (false, σ)
      | Cosigner.validatorSet network =>
        match oracle.keysForNetwork global_session_start_block_hash network with
        | none => some (false, σ)
        | some keys =>
          if ¬ (oracle.verifySignature signed_cosign keys) then some (false, σ)
          else
            -- Check our finalized blockchain exceeds this block number
            if oracle.latestFinalizedNumber < cosign.block_number then some (true, σ)
            else
              -- Save the cosign to the database (staged in the transaction)
              let σ₁ : CosignState :=
                { σ with
                  cosigns := fun n =>
                    if n = cosign.block_number then
                      cosigns_for_this_block_position ++ [signed_cosign]
                    else σ.cosigns n }
              let our_block_hash := oracle.blockHash cosign.block_number
              if our_block_hash = cosign.block_hash then
                -- If this is for a future global session, don't acknowledge it now
                if global_session_start_block_number > σ.latestCosignedBlockNumber.getD 0 then
                  some (true, σ)
                else
                  let σ₂ : CosignState :=
                    if ((σ.networksLatestCosignedBlock network).map
                          (fun c => c.cosign.block_number)).getD 0 < cosign.block_number then
                      { σ₁ with
                        networksLatestCosignedBlock := fun n =>
                          if n = network then some signed_cosign
                          else σ.networksLatestCosignedBlock n }
                    else σ₁
                  some (true, σ₂)
              else
                let faults := σ.faults cosign.global_session
                -- Only handle this as a fault if this set wasn't prior faulty
                if faults.any
                    (fun c => c.cosign.cosigner == Cosigner.validatorSet network) then
                  some (true, σ₁)
                else
                  let faults' := faults ++ [signed_cosign]
                  let w := fault_weight_loop oracle global_session_start_block_hash faults'
                  if w.2 = 0 then none
                  else
                    let σ₂ : CosignState :=
                      { σ₁ with
                        faults := fun g =>
                          if g = cosign.global_session then faults' else σ.faults g,
                        faultedSession :=
                          if w.1 ≥ w.2 * 17 / 100 then some cosign.global_session
                          else σ.faultedSession }
                    some (true, σ₂)

/-- `Cosigning::notable_cosigns` from lib.rs.  The body of the source function
is the diverging `todo` macro, which panics unconditionally; a panic is
modelled as `none`. -/
def notable_cosigns (σ : CosignState) (global_session : Bytes) :
    Option (List SignedCosign) :=
  none

/-- `BROADCAST_FREQUENCY` from delay.rs, in seconds. -/
def BROADCAST_FREQUENCY : Nat := 60

/-- `SYNCHRONY_EXPECTATION` from delay.rs, in seconds. -/
def SYNCHRONY_EXPECTATION : Nat := 10

/-- `ACKNOWLEDGEMENT_DELAY` from delay.rs, in seconds. -/
def ACKNOWLEDGEMENT_DELAY : Nat := BROADCAST_FREQUENCY + SYNCHRONY_EXPECTATION

/-- `time_valid` in `CosignDelayTask::run_iteration`: seconds since the Unix
epoch at which a cosigned block becomes acknowledgeable. -/
def time_valid (time_evaluated : Nat) : Nat := time_evaluated + ACKNOWLEDGEMENT_DELAY

/-- The duration slept by `CosignDelayTask::run_iteration` (delay.rs line 42),
verbatim: `SystemTime::now().duration_since(time_valid).unwrap_or(ZERO)`.
`duration_since` yields `now - time_valid` when `now ≥ time_valid` and errors
otherwise, so with `unwrap_or(ZERO)` the slept duration is the truncated
subtraction `now - time_valid`. -/
def delay_sleep_duration (now time_evaluated : Nat) : Nat :=
  now - time_valid time_evaluated

/-- One `CosignedBlocks` message processed by the delay task: returns the
duration slept and the value written to its `LatestCosignedBlockNumber`
(the latest acknowledged block number). -/
def delay_process (now block_number time_evaluated : Nat) : Nat × Nat :=
  (delay_sleep_duration now time_evaluated, block_number)

/-- Block classification (`HasEvents` in lib.rs). -/
inductive HasEvents where
  | notable
  | nonNotable
  | no
deriving DecidableEq

/-- A `BlockEvents` channel message (`BlockEventData` in intend.rs). -/
structure BlockEventData where
  block_number : Nat
  parent_hash : Bytes
  block_hash : Bytes
  has_events : HasEvents

/-- The global session information consumed by evaluator.rs: its start block
number, the participating sets, the per-network stake map and the total
stake. -/
structure EvalGlobalSession where
  start_block_number : Nat
  sets : List ValidatorSet
  stakes : NetworkId → Option Nat
  total_stake : Nat

/-- The durable state read and written by `CosignEvaluatorTask`:
`LatestCosignedBlockNumber`, `CurrentlyEvaluatedGlobalSession`, the
`GlobalSessions` channel contents (in order), and
`NetworksLatestCosignedBlock` keyed by global session and network. -/
structure EvalState where
  latestCosignedBlockNumber : Option Nat
  currentlyEvaluatedGlobalSession : Option (Bytes × EvalGlobalSession)
  globalSessionsChannel : List (Bytes × EvalGlobalSession)
  networksLatestCosignedBlock : Bytes → NetworkId → Option SignedCosign

/-- `currently_evaluated_global_session_strict` from evaluator.rs.  `none`
models a panic (the `expect` on an empty channel or a failed assertion);
otherwise the chosen session and the updated state are returned. -/
def currently_evaluated_global_session_strict (σ : EvalState) (block_number : Nat) :
    Option ((Bytes × EvalGlobalSession) × EvalState) :=
  let adopted : Option ((Bytes × EvalGlobalSession) × EvalState) :=
    match σ.currentlyEvaluatedGlobalSession with
    | some existing => some (existing, σ)
    | none =>
      match σ.globalSessionsChannel with
      | [] => none
      | first :: rest =>
        some (first,
          { σ with
            currentlyEvaluatedGlobalSession := some first,
            globalSessionsChannel := rest })
  match adopted with
  | none => none
  | some (existing, σ₁) =>
    if ¬ (existing.2.start_block_number ≤ block_number) then none
    else
      match σ₁.globalSessionsChannel with
      | [] => some (existing, σ₁)
      | next :: rest =>
        if ¬ (block_number ≤ next.2.start_block_number) then none
        else if block_number = next.2.start_block_number then
          some (next,
            { σ₁ with
              currentlyEvaluatedGlobalSession := some next,
              globalSessionsChannel := rest })
        else some (existing, σ₁)

/-- The `u64` modulus. -/
def U64 : Nat := 18446744073709551616

/-- The evaluator's threshold test (evaluator.rs lines 130 and 191):
`weight_cosigned < total_stake * 83 / 100 + 1`, with the `u64` product
wrapping made explicit. -/
def thresholdFails (weight_cosigned total_stake : Nat) : Bool :=
  decide (weight_cosigned < (total_stake * 83) % U64 / 100 + 1)

/-- The `HasEvents::Notable` weight loop of evaluator.rs: the sum of the
stakes of the sets whose latest stored cosign for this global session is for
exactly this block.  `none` models the `ok_or_else` error raised when a set's
stake is absent from the stake map. -/
def notable_weight (σ : EvalState) (global_session : Bytes)
    (info : EvalGlobalSession) (block_number : Nat) : Option Nat :=
  info.sets.foldl
    (fun acc set =>
      match acc with
      | none => none
      | some weight_cosigned =>
        if (σ.networksLatestCosignedBlock global_session set.network).map
            (fun signed_cosign => signed_cosign.cosign.block_number) = some block_number then
          match info.stakes set.network with
          | none => none
          | some stake => some (weight_cosigned + stake)
        else some weight_cosigned)
    (some 0)

/-- The `HasEvents::NonNotable` weight loop of evaluator.rs: sets with a
stored cosign at this block or later contribute their stake, and the lowest
block number among all stored cosigns is tracked.  `none` models the
`ok_or_else` error raised when a contributing set's stake is absent. -/
def non_notable_weight (σ : EvalState) (global_session : Bytes)
    (info : EvalGlobalSession) (block_number : Nat) : Option (Nat × Option Nat) :=
  info.sets.foldl
    (fun acc set =>
      match acc with
      | none => none
      | some (weight_cosigned, lowest_common_block) =>
        match σ.networksLatestCosignedBlock global_session set.network with
        | none => some (weight_cosigned, lowest_common_block)
        | some cosign =>
          let weight' :=
            if cosign.cosign.block_number ≥ block_number then
              (info.stakes set.network).map (fun stake => weight_cosigned + stake)
            else some weight_cosigned
          match weight' with
          | none => none
          | some w =>
            some (w,
              some (match lowest_common_block with
                | some existing => min existing cosign.cosign.block_number
                | none => cosign.cosign.block_number)))
    (some (0, none))

/-- The outcome of one `CosignEvaluatorTask::run_iteration` call: a panic, an
error return (the in-flight transaction is dropped, so the state and channel
revert to the loop entry), or normal completion. -/
inductive RunResult where
  | panicked
  | errored (σ : EvalState) (events : List BlockEventData)
  | ok (made_progress : Bool) (σ : EvalState) (events : List BlockEventData)

/-- The message loop of `CosignEvaluatorTask::run_iteration` (evaluator.rs
lines 96-226).  `latest_cosigned_block_number` is the snapshot read once
before the loop; the assertion compares every consumed message against this
same snapshot.  The events list holds the remaining `BlockEvents` channel
contents. -/
def eval_loop (latest_cosigned_block_number : Nat) :
    List BlockEventData → Option Nat → Bool → EvalState → RunResult
  | [], _, made_progress, σ => RunResult.ok made_progress σ []
  | msg :: rest, known_cosign, _, σ =>
    -- Make sure these two feeds haven't desynchronized somehow
    if msg.block_number ≠ latest_cosigned_block_number + 1 then RunResult.panicked
    else
      match msg.has_events with
      | HasEvents.no =>
        eval_loop latest_cosigned_block_number rest known_cosign true
          { σ with latestCosignedBlockNumber := some msg.block_number }
      | HasEvents.notable =>
        match currently_evaluated_global_session_strict σ msg.block_number with
        | none => RunResult.panicked
        | some ((global_session, info), σ₁) =>
          match notable_weight σ₁ global_session info msg.block_number with
          | none => RunResult.errored σ (msg :: rest)
          | some weight_cosigned =>
            if thresholdFails weight_cosigned info.total_stake then
              RunResult.errored σ (msg :: rest)
            else
              eval_loop latest_cosigned_block_number rest known_cosign true
                { σ₁ with latestCosignedBlockNumber := some msg.block_number }
      | HasEvents.nonNotable =>
        let known_cosigned :=
          match known_cosign with
          | some kc => decide (kc ≥ msg.block_number)
          | none => false
        if known_cosigned then
          eval_loop latest_cosigned_block_number rest known_cosign true
            { σ with latestCosignedBlockNumber := some msg.block_number }
        else
          match currently_evaluated_global_session_strict σ msg.block_number with
          | none => RunResult.panicked
          | some ((global_session, info), σ₁) =>
            match non_notable_weight σ₁ global_session info msg.block_number with
            | none => RunResult.errored σ (msg :: rest)
            | some (weight_cosigned, lowest_common_block) =>
              if thresholdFails weight_cosigned info.total_stake then
                RunResult.errored σ (msg :: rest)
              else
                eval_loop latest_cosigned_block_number rest lowest_common_block true
                  { σ₁ with latestCosignedBlockNumber := some msg.block_number }

/-- `CosignEvaluatorTask::run_iteration`: reads the latest cosigned block
number once, then drains the `BlockEvents` channel. -/
def run_iteration (σ : EvalState) (events : List BlockEventData) : RunResult :=
  eval_loop (σ.latestCosignedBlockNumber.getD 0) events none false σ

/-- Modelled from the spec: the Borsh tag byte of a `NetworkId`. -/
def NetworkId.borshTag : NetworkId → Nat
  | NetworkId.serai => 0
  | NetworkId.bitcoin => 1
  | NetworkId.ethereum => 2
  | NetworkId.monero => 3

/-- Modelled from the spec: a `u32` in little-endian Borsh byte order. -/
def u32LE (n : Nat) : Bytes :=
  [n % 256, n / 256 % 256, n / 65536 % 256, n / 16777216 % 256]

/-- Modelled from the spec: the canonical Borsh serialization of a
`(network, session)` pair, the sort key used by `GlobalSession::new`. -/
def ValidatorSet.borsh (v : ValidatorSet) : Bytes :=
  v.network.borshTag :: u32LE v.session.val

/-- Lexicographic (≤) comparison on byte strings: the order `sort_by_key`
imposes via `Vec<u8>`'s `Ord`. -/
def bytesLe : Bytes → Bytes → Bool
  | [], _ => true
  | _ :: _, [] => false
  | a :: as, b :: bs =>
    if a < b then true
    else if b < a then false
    else bytesLe as bs

theorem bytesLe_total : ∀ a b : Bytes, bytesLe a b = true ∨ bytesLe b a = true
  | [], [] => Or.inl rfl
  | [], _ :: _ => Or.inl rfl
  | _ :: _, [] => Or.inr rfl
  | a :: as, b :: bs => by
    rcases Nat.lt_trichotomy a b with h | h | h
    · left
      simp [bytesLe, h]
    · subst h
      rcases bytesLe_total as bs with ih | ih
      · left
        simpa [bytesLe] using ih
      · right
        simpa [bytesLe] using ih
    · right
      simp [bytesLe, h]

theorem bytesLe_trans :
    ∀ a b c : Bytes, bytesLe a b = true → bytesLe b c = true → bytesLe a c = true
  | [], _, _, _, _ => rfl
  | _ :: _, [], _, hab, _ => by simp [bytesLe] at hab
  | _ :: _, _ :: _, [], _, hbc => by simp [bytesLe] at hbc
  | a :: as, b :: bs, c :: cs, hab, hbc => by
    simp only [bytesLe] at hab hbc ⊢
    rcases Nat.lt_trichotomy a b with h1 | h1 | h1
    · rcases Nat.lt_trichotomy b c with h2 | h2 | h2
      · simp [Nat.lt_trans h1 h2]
      · subst h2
        simp [h1]
      · simp [h1, Nat.lt_asymm h1] at hab
        simp [h2, Nat.lt_asymm h2] at hbc
    · subst h1
      rcases Nat.lt_trichotomy a c with h2 | h2 | h2
      · simp [h2]
      · subst h2
        simp only [Nat.lt_irrefl, if_false] at hab hbc ⊢
        exact bytesLe_trans as bs cs hab hbc
      · simp [Nat.lt_asymm h2, h2] at hbc
    · simp [h1, Nat.lt_asymm h1] at hab

theorem bytesLe_antisymm :
    ∀ a b : Bytes, bytesLe a b = true → bytesLe b a = true → a = b
  | [], [], _, _ => rfl
  | [], _ :: _, _, hba => by simp [bytesLe] at hba
  | _ :: _, [], hab, _ => by simp [bytesLe] at hab
  | a :: as, b :: bs, hab, hba => by
    rcases Nat.lt_trichotomy a b with h | h | h
    · simp [bytesLe, h, Nat.lt_asymm h] at hba
    · subst h
      simp only [bytesLe, Nat.lt_irrefl, if_false] at hab hba
      rw [bytesLe_antisymm as bs hab hba]
    · simp [bytesLe, h, Nat.lt_asymm h] at hab

theorem u32LE_inj {m n : Nat} (hm : m < 4294967296) (hn : n < 4294967296)
    (h : u32LE m = u32LE n) : m = n := by
  simp only [u32LE, List.cons.injEq, and_true] at h
  omega

theorem validatorSet_borsh_inj :
    ∀ {a b : ValidatorSet}, a.borsh = b.borsh → a = b := by
  intro a b h
  obtain ⟨anet, ases⟩ := a
  obtain ⟨bnet, bses⟩ := b
  simp only [ValidatorSet.borsh, List.cons.injEq] at h
  obtain ⟨htag, hses⟩ := h
  have hnet : anet = bnet := by
    cases anet <;> cases bnet <;> simp_all [NetworkId.borshTag]
  subst hnet
  have : ases = bses := Fin.ext (u32LE_inj ases.isLt bses.isLt hses)
  rw [this]

/-- The sort order of `GlobalSession::new`: compare cosigners by the Borsh
serialization of each entry. -/
def vsLe (a b : ValidatorSet) : Prop := bytesLe a.borsh b.borsh = true

instance : DecidableRel vsLe :=
  fun a b => inferInstanceAs (Decidable (bytesLe a.borsh b.borsh = true))

instance : IsTotal ValidatorSet vsLe :=
  ⟨fun a b => bytesLe_total a.borsh b.borsh⟩

instance : IsTrans ValidatorSet vsLe :=
  ⟨fun a b c => bytesLe_trans a.borsh b.borsh c.borsh⟩

instance : IsAntisymm ValidatorSet vsLe :=
  ⟨fun _ _ h1 h2 => validatorSet_borsh_inj (bytesLe_antisymm _ _ h1 h2)⟩

/-- `GlobalSession` from lib.rs: the cosigners, held sorted. -/
structure GlobalSession where
  cosigners : List ValidatorSet

/-- `GlobalSession::new` from lib.rs: sort the cosigners by the Borsh
serialization of each entry (a stable sort; insertion sort here). -/
def GlobalSession.new (cosigners : List ValidatorSet) : GlobalSession :=
  { cosigners := List.insertionSort vsLe cosigners }

/-- Modelled from the spec: the canonical Borsh serialization of a
`GlobalSession` (its single `Vec<ValidatorSet>` field: a `u32` little-endian
length prefix followed by each entry's serialization). -/
def GlobalSession.borsh (g : GlobalSession) : Bytes :=
  u32LE g.cosigners.length ++ (g.cosigners.map ValidatorSet.borsh).flatten

/-- `GlobalSession::id` from lib.rs, with the Blake2s-256 digest (an external
crate) abstracted into an explicit digest argument applied to the canonical
serialization. -/
def GlobalSession.idWith (digest : Bytes → Bytes) (g : GlobalSession) : Bytes :=
  digest g.borsh

/-- A cosign database with no key set. -/
def emptyCosignState : CosignState where
  cosigns := fun _ => []
  globalSessions := fun _ => none
  networksLatestCosignedBlock := fun _ => none
  faults := fun _ => []
  faultedSession := none
  latestCosignedBlockNumber := none

/-- An evaluator database with no key set and empty channels. -/
def emptyEvalState : EvalState where
  latestCosignedBlockNumber := none
  currentlyEvaluatedGlobalSession := none
  globalSessionsChannel := []
  networksLatestCosignedBlock := fun _ _ => none

/-- A 32-byte session identifier. -/
def sessionA : Bytes := List.replicate 32 1

/-- A 32-byte session start block hash. -/
def startHashA : Bytes := List.replicate 32 2

/-- A 32-byte block hash: the locally observed hash. -/
def localHashA : Bytes := List.replicate 32 3

/-- A 32-byte block hash disagreeing with the locally observed hash. -/
def otherHashA : Bytes := List.replicate 32 4

/-- A disagreeing cosign from Bitcoin for block 1 of session `sessionA`. -/
def faultCosign : SignedCosign where
  cosign :=
    { global_session := sessionA
      block_number := 1
      block_hash := otherHashA
      cosigner := Cosigner.validatorSet NetworkId.bitcoin }
  signature := List.replicate 64 0

/-- A state recognizing `sessionA` with start block 1. -/
def faultState : CosignState :=
  { emptyCosignState with
    globalSessions := fun g => if g = sessionA then some (1, startHashA) else none
    latestCosignedBlockNumber := some 1 }

/-- An oracle under which `faultCosign`'s signature verifies, the local hash
of block 1 is `localHashA`, and the cosigning sets as of the session start are
Serai with stake 80 followed by Bitcoin with stake 5. -/
def faultOracle : SeraiOracle where
  latestFinalizedNumber := 1
  blockHash := fun _ => localHashA
  keysForNetwork := fun _ _ => some [9]
  verifySignature := fun _ _ => true
  cosigningSets := fun _ => [⟨NetworkId.serai, 1⟩, ⟨NetworkId.bitcoin, 1⟩]
  totalAllocatedStake := fun _ network =>
    match network with
    | NetworkId.serai => 80
    | NetworkId.bitcoin => 5
    | _ => 0

/-- A matching cosign from Monero for block 3 of a session starting at
block 5: a cosign strictly below its session's start block. -/
def belowWindowCosign : SignedCosign where
  cosign :=
    { global_session := sessionA
      block_number := 3
      block_hash := localHashA
      cosigner := Cosigner.validatorSet NetworkId.monero }
  signature := List.replicate 64 0

/-- A state recognizing `sessionA` with start block 5, already evaluated up to
block 10. -/
def belowWindowState : CosignState :=
  { emptyCosignState with
    globalSessions := fun g => if g = sessionA then some (5, startHashA) else none
    latestCosignedBlockNumber := some 10 }

/-- An oracle under which `belowWindowCosign`'s signature verifies and its
block hash matches the locally observed hash. -/
def belowWindowOracle : SeraiOracle where
  latestFinalizedNumber := 10
  blockHash := fun _ => localHashA
  keysForNetwork := fun _ _ => some [7]
  verifySignature := fun _ _ => true
  cosigningSets := fun _ => []
  totalAllocatedStake := fun _ _ => 0

/-- A matching cosign from Ethereum for block 6 of a session starting at
block 6, beyond the evaluator's progress. -/
def futureSessionCosign : SignedCosign where
  cosign :=
    { global_session := sessionA
      block_number := 6
      block_hash := localHashA
      cosigner := Cosigner.validatorSet NetworkId.ethereum }
  signature := List.replicate 64 0

/-- A state recognizing `sessionA` with start block 6 while the evaluator has
cosigned nothing yet. -/
def futureSessionState : CosignState :=
  { emptyCosignState with
    globalSessions := fun g => if g = sessionA then some (6, startHashA) else none }

/-- An oracle under which `futureSessionCosign`'s signature verifies and its
block hash matches the locally observed hash. -/
def futureSessionOracle : SeraiOracle where
  latestFinalizedNumber := 10
  blockHash := fun _ => localHashA
  keysForNetwork := fun _ _ => some [8]
  verifySignature := fun _ _ => true
  cosigningSets := fun _ => []
  totalAllocatedStake := fun _ _ => 0

/-- A cosign from Serai for block 2. -/
def handledCosign : SignedCosign where
  cosign :=
    { global_session := sessionA
      block_number := 2
      block_hash := localHashA
      cosigner := Cosigner.validatorSet NetworkId.serai }
  signature := List.replicate 64 0

/-- A state whose cosign archive for block 2 already holds `handledCosign`. -/
def handledState : CosignState :=
  { emptyCosignState with
    cosigns := fun n => if n = 2 then [handledCosign] else [] }

/-- A cosign whose cosigner is an individual validator, which intake always
rejects. -/
def validatorCosign : SignedCosign where
  cosign :=
    { global_session := sessionA
      block_number := 1
      block_hash := localHashA
      cosigner := Cosigner.validator [5] }
  signature := List.replicate 64 0

/-- A state recognizing `sessionA` so that `validatorCosign` reaches the
cosigner dispatch. -/
def validatorCosignState : CosignState :=
  { emptyCosignState with
    globalSessions := fun g => if g = sessionA then some (1, startHashA) else none }

/-- Two consecutive `BlockEvents` messages with no events, starting at
block 1. -/
def twoNoEventMessages : List BlockEventData :=
  [ { block_number := 1, parent_hash := [], block_hash := localHashA
      has_events := HasEvents.no }
  , { block_number := 2, parent_hash := [], block_hash := localHashA
      has_events := HasEvents.no } ]

/-- A cosigner entry: Serai, session 1. -/
def vsSerai : ValidatorSet := ⟨NetworkId.serai, 1⟩

/-- A cosigner entry: Monero, session 3. -/
def vsMonero : ValidatorSet := ⟨NetworkId.monero, 3⟩

/-- C1: the claim states the fault weight is recomputed as the sum of the
faulting networks' stakes.  The code instead adds the running cumulative total of
all iterated stakes: with Serai (stake 80, honest) iterated before Bitcoin
(stake 5, faulting), a single Bitcoin fault yields a recorded weight of 85 and
sets `FaultedSession`, although the sum of the faulting networks' stakes is 5,
strictly below the threshold `⌊85 · 17 / 100⌋ = 14`. -/
theorem intake_fault_weight_adds_running_total :
    (intake_cosign faultState faultOracle faultCosign).map
        (fun r => r.2.faultedSession) = some (some sessionA) ∧
    fault_weight_loop faultOracle startHashA [faultCosign] = (85, 85) ∧
    spec_fault_weight faultOracle startHashA [faultCosign] = 5 ∧
    5 < 85 * 17 / 100 := by
  refine ⟨?_, ?_, ?_, ?_⟩ <;> decide

/-- C2: the claim states the delay task sleeps until the wall clock reaches
`time_valid = time_evaluated + 70`, sleeping `time_valid - now` and zero only
once `time_valid` has passed.  The code computes
`now.duration_since(time_valid).unwrap_or(ZERO)`, i.e. `now - time_valid`: at
`now = 100` with `time_evaluated = 100` the deadline `time_valid 100 = 170`
is still 70 seconds away, yet the slept duration is 0; at `now = 240`, 70
seconds after the deadline, it sleeps 70 seconds. -/
theorem delay_sleep_duration_inverted :
    delay_sleep_duration 100 100 = 0 ∧ 100 < time_valid 100 ∧
    delay_sleep_duration 240 100 = 70 ∧ time_valid 100 < 240 := by
  decide

/-- C3: the claim states the evaluator's assertion holds for gap-free
strictly increasing `BlockEvents` starting at 1, even when one
`run_iteration` call consumes several messages.  The code snapshots
`LatestCosignedBlockNumber` once before its loop and asserts every consumed
message against that stale snapshot, so with the backlog `[(1, No), (2, No)]`
and nothing yet cosigned the second message trips the assertion and the task
panics. -/
theorem evaluator_asserts_on_second_message :
    run_iteration emptyEvalState twoNoEventMessages = RunResult.panicked := rfl

/-- C9: the claim states `notable_cosigns` returns normally for every session
identifier.  The source body is the diverging `todo` macro, so the call
panics (modelled as `none`) for the concrete all-zero session identifier. -/
theorem notable_cosigns_panics :
    notable_cosigns emptyCosignState (List.replicate 32 0) = none := rfl

/-- C4 counterexample: the claim states a delivered cosign whose block number
is strictly below its session's start block yields `Ok(false)` with no state
mutation.  `belowWindowCosign` is for block 3 of a session starting at
block 5, passes every check the code actually performs, and intake returns
`Ok(true)` while recording it as Monero's latest cosigned block. -/
theorem intake_below_window_counterexample :
    belowWindowCosign.cosign.block_number < 5 ∧
    belowWindowState.globalSessions sessionA = some (5, startHashA) ∧
    (intake_cosign belowWindowState belowWindowOracle belowWindowCosign).map
        Prod.fst = some true ∧
    (intake_cosign belowWindowState belowWindowOracle belowWindowCosign).map
        (fun r => r.2.networksLatestCosignedBlock NetworkId.monero) =
      some (some belowWindowCosign) := by
  refine ⟨?_, ?_, ?_, ?_⟩ <;> decide

/-- C4 amended: `intake_cosign` performs no session-window lower-bound check.
A cosign below its session's start block which passes the checks the code does
perform (unseen before, recognized session, validator-set cosigner with known
keys, verifying signature, block already finalized locally, matching block
hash, session already reached by the evaluator) returns `Ok(true)` like any
in-window cosign. -/
theorem intake_below_window_accepted (σ : CosignState) (oracle : SeraiOracle)
    (signed_cosign : SignedCosign) (network : NetworkId)
    (start_block_number : Nat) (start_block_hash keys : Bytes)
    (h_new : (σ.cosigns signed_cosign.cosign.block_number).any
        (fun existing => existing.cosign == signed_cosign.cosign) = false)
    (h_session : σ.globalSessions signed_cosign.cosign.global_session =
        some (start_block_number, start_block_hash))
    (h_cosigner : signed_cosign.cosign.cosigner = Cosigner.validatorSet network)
    (h_keys : oracle.keysForNetwork start_block_hash network = some keys)
    (h_verify : oracle.verifySignature signed_cosign keys = true)
    (h_chain : signed_cosign.cosign.block_number ≤ oracle.latestFinalizedNumber)
    (h_hash : oracle.blockHash signed_cosign.cosign.block_number =
        signed_cosign.cosign.block_hash)
    (h_started : start_block_number ≤ σ.latestCosignedBlockNumber.getD 0)
    (h_below_window : signed_cosign.cosign.block_number < start_block_number) :
    (intake_cosign σ oracle signed_cosign).map Prod.fst = some true := by
  have h_not_lt : ¬ (oracle.latestFinalizedNumber < signed_cosign.cosign.block_number) :=
    Nat.not_lt.mpr h_chain
  have h_not_future : ¬ (σ.latestCosignedBlockNumber.getD 0 < start_block_number) :=
    Nat.not_lt.mpr h_started
  simp only [intake_cosign, h_new, h_session, h_cosigner, h_keys, h_verify, h_hash,
    h_not_lt, h_not_future, Bool.false_eq_true, not_true, ite_false, ite_true,
    if_false, if_true]
  split <;> simp

/-- C4 amended witness: the below-window cosign for block 3 of the session
starting at block 5 is accepted. -/
theorem intake_below_window_accepted_witness :
    (intake_cosign belowWindowState belowWindowOracle belowWindowCosign).map
        Prod.fst = some true :=
  intake_below_window_accepted belowWindowState belowWindowOracle belowWindowCosign
    NetworkId.monero 5 startHashA [7] (by decide) (by decide) rfl rfl rfl
    (by decide) rfl (by decide) (by decide)

/-- C5: the evaluator's integer threshold test
`weight_cosigned < total_stake * 83 / 100 + 1` (with `u64` wrapping) fails to
reject exactly when `weight_cosigned * 100 > total_stake * 83`, provided the
two products do not overflow a `u64`: the implemented test is the strict
more-than-83% supermajority rule. -/
theorem evaluator_threshold_iff_strict_supermajority
    (weight_cosigned total_stake : Nat)
    (h100 : weight_cosigned * 100 < U64) (h83 : total_stake * 83 < U64) :
    thresholdFails weight_cosigned total_stake = false ↔
      weight_cosigned * 100 > total_stake * 83 := by
  have hmod : (total_stake * 83) % U64 = total_stake * 83 := Nat.mod_eq_of_lt h83
  simp only [thresholdFails, hmod, decide_eq_false_iff_not, Nat.not_lt, gt_iff_lt]
  have hdiv : total_stake * 83 / 100 < weight_cosigned ↔
      total_stake * 83 < weight_cosigned * 100 :=
    Nat.div_lt_iff_lt_mul (by omega)
  omega

/-- C5 witness: 84 out of a total stake of 100 meets the evaluator's
threshold, matching `84 · 100 > 100 · 83`. -/
theorem evaluator_threshold_iff_strict_supermajority_witness :
    thresholdFails 84 100 = false :=
  (evaluator_threshold_iff_strict_supermajority 84 100 (by decide) (by decide)).mpr
    (by decide)

/-- C6: the global session identifier — any digest applied to the canonical
serialization of the cosigner list sorted by each entry's serialization —
is invariant under permutation of the input list. -/
theorem global_session_id_perm_invariant (digest : Bytes → Bytes)
    (l l' : List ValidatorSet) (h : l.Perm l') :
    GlobalSession.idWith digest (GlobalSession.new l) =
      GlobalSession.idWith digest (GlobalSession.new l') := by
  have hnew : GlobalSession.new l = GlobalSession.new l' := by
    unfold GlobalSession.new
    congr 1
    exact List.eq_of_perm_of_sorted
      ((List.perm_insertionSort vsLe l).trans
        (h.trans (List.perm_insertionSort vsLe l').symm))
      (List.sorted_insertionSort vsLe l) (List.sorted_insertionSort vsLe l')
  rw [hnew]

/-- C6 witness: swapping the two cosigners of a concrete list leaves the
identifier (here under the identity digest) unchanged. -/
theorem global_session_id_perm_invariant_witness :
    GlobalSession.idWith (fun b => b) (GlobalSession.new [vsSerai, vsMonero]) =
      GlobalSession.idWith (fun b => b) (GlobalSession.new [vsMonero, vsSerai]) :=
  global_session_id_perm_invariant (fun b => b) _ _ (List.Perm.swap vsMonero vsSerai [])

/-- C7: re-intaking a signed cosign whose `Cosign` body is already in the
cosign archive for its block number — as every prior committed handling
leaves it — returns `Ok(true)` and leaves every durable key exactly as it
was. -/
theorem intake_reintake_idempotent (σ : CosignState) (oracle : SeraiOracle)
    (signed_cosign : SignedCosign)
    (h_handled : (σ.cosigns signed_cosign.cosign.block_number).any
        (fun existing => existing.cosign == signed_cosign.cosign) = true) :
    intake_cosign σ oracle signed_cosign = some (true, σ) := by
  simp only [intake_cosign, h_handled, if_true, ite_true]

/-- C7 witness: re-intaking `handledCosign`, already archived under block 2,
returns true with the state unchanged. -/
theorem intake_reintake_idempotent_witness :
    intake_cosign handledState faultOracle handledCosign =
      some (true, handledState) :=
  intake_reintake_idempotent handledState faultOracle handledCosign (by decide)

/-- C8: whenever `intake_cosign` returns `Ok(false)`, the in-flight
transaction is discarded without commit and the durable store is exactly as
before the call. -/
theorem intake_invalid_leaves_state_unchanged (σ : CosignState)
    (oracle : SeraiOracle) (signed_cosign : SignedCosign) (σ' : CosignState)
    (h : intake_cosign σ oracle signed_cosign = some (false, σ')) : σ' = σ := by
  simp only [intake_cosign] at h
  repeat' split at h
  all_goals simp_all

/-- C8 witness: a cosign from an individual validator is rejected, and the
state it leaves is the input state. -/
theorem intake_invalid_leaves_state_unchanged_witness :
    intake_cosign validatorCosignState belowWindowOracle validatorCosign =
      some (false, validatorCosignState) ∧
    validatorCosignState = validatorCosignState :=
  ⟨rfl,
    intake_invalid_leaves_state_unchanged validatorCosignState belowWindowOracle
      validatorCosign validatorCosignState rfl⟩

/-- C10: a signed cosign passing signature verification, matching the locally
observed block hash, but belonging to a global session whose start block the
evaluator has not yet reached, yields `Ok(true)` while the transaction is
dropped: no durable key — neither the per-block archive nor
`NetworksLatestCosignedBlock` — changes. -/
theorem intake_future_session_no_commit (σ : CosignState) (oracle : SeraiOracle)
    (signed_cosign : SignedCosign) (network : NetworkId)
    (start_block_number : Nat) (start_block_hash keys : Bytes)
    (h_new : (σ.cosigns signed_cosign.cosign.block_number).any
        (fun existing => existing.cosign == signed_cosign.cosign) = false)
    (h_session : σ.globalSessions signed_cosign.cosign.global_session =
        some (start_block_number, start_block_hash))
    (h_cosigner : signed_cosign.cosign.cosigner = Cosigner.validatorSet network)
    (h_keys : oracle.keysForNetwork start_block_hash network = some keys)
    (h_verify : oracle.verifySignature signed_cosign keys = true)
    (h_chain : signed_cosign.cosign.block_number ≤ oracle.latestFinalizedNumber)
    (h_hash : oracle.blockHash signed_cosign.cosign.block_number =
        signed_cosign.cosign.block_hash)
    (h_future : σ.latestCosignedBlockNumber.getD 0 < start_block_number) :
    intake_cosign σ oracle signed_cosign = some (true, σ) := by
  have h_not_lt : ¬ (oracle.latestFinalizedNumber < signed_cosign.cosign.block_number) :=
    Nat.not_lt.mpr h_chain
  simp only [intake_cosign, h_new, h_session, h_cosigner, h_keys, h_verify, h_hash,
    h_not_lt, h_future, Bool.false_eq_true, not_true, ite_false, ite_true,
    if_false, if_true]

/-- C10 witness: a matching cosign for block 6 of the not-yet-reached session
starting at block 6 returns true and leaves the state untouched. -/
theorem intake_future_session_no_commit_witness :
    intake_cosign futureSessionState futureSessionOracle futureSessionCosign =
      some (true, futureSessionState) :=
  intake_future_session_no_commit futureSessionState futureSessionOracle
    futureSessionCosign NetworkId.ethereum 6 startHashA [8] (by decide) (by decide)
    rfl rfl rfl (by decide) rfl (by decide)
